import Mathlib

/-!
Shallow embedding of the movie catalog service
(`src/routes/movies.py`, `src/schemas/movies.py`).

The relational store is modelled as lists of rows; SQLAlchemy's
`db.scalar(select(M).where(p))` is `List.find?`, association
(secondary) tables are lists of id pairs, and autoincrement primary
keys are explicit `next…Id` counters.  Dates are modelled as integers
(days); the numeric payload fields (score, budget, revenue) are
modelled as integers, since no operation of the service computes with
them.  `HTTPException` carries the status code and detail string, as
in the source.  Each endpoint is a function `Store → Except
HTTPException (α × Store)`; the session is committed exactly once at
the end of a successful handler, so a handler that raises leaves the
database unchanged — `run` below makes this explicit.
-/

namespace MovieService

/-- Movie status enumeration (`MovieStatusEnum`). -/
inductive MovieStatusEnum where
  | released
  | inProduction
  | postProduction
deriving DecidableEq, Repr

/-- A row of the `countries` table (`CountryModel`). -/
structure CountryModel where
  id : Nat
  code : String
  name : String
deriving DecidableEq, Repr

/-- A row of one of the name lookup tables
(`GenreModel` / `ActorModel` / `LanguageModel`: id plus unique name). -/
structure NamedModel where
  id : Nat
  name : String
deriving DecidableEq, Repr

/-- A row of the `movies` table (`MovieModel`); the many-to-one country
relation is the foreign key `countryId`, the many-to-many relations live
in the association tables of `Store`. -/
structure MovieModel where
  id : Nat
  name : String
  date : Int
  score : Int
  overview : String
  status : MovieStatusEnum
  budget : Int
  revenue : Int
  countryId : Nat
deriving DecidableEq, Repr

/-- The relational store: entity tables, association tables for the three
many-to-many relations, and autoincrement counters. -/
structure Store where
  movies : List MovieModel
  countries : List CountryModel
  genres : List NamedModel
  actors : List NamedModel
  languages : List NamedModel
  movieGenres : List (Nat × Nat)
  movieActors : List (Nat × Nat)
  movieLanguages : List (Nat × Nat)
  nextMovieId : Nat
  nextCountryId : Nat
  nextGenreId : Nat
  nextActorId : Nat
  nextLanguageId : Nat
deriving DecidableEq, Repr

/-- `fastapi.HTTPException`: status code plus detail message. -/
structure HTTPException where
  status_code : Nat
  detail : String
deriving DecidableEq, Repr

/-- An endpoint handler: it may raise, or return a response together with
the committed store. -/
def Handler (α : Type) : Type := Store → Except HTTPException (Store × α)

/-- Running a handler against the database: the session is committed only
at the end of a successful handler body, so when the handler raises the
database is left as it was. -/
def run {α : Type} (h : Handler α) (s : Store) : Except HTTPException α × Store :=
  match h s with
  | .ok (s2, a) => (.ok a, s2)
  | .error e => (.error e, s)

/-- `MovieCreateSchema`: the validated create payload. -/
structure MovieCreateSchema where
  name : String
  date : Int
  score : Int
  overview : String
  status : MovieStatusEnum
  budget : Int
  revenue : Int
  country : String
  genres : List String
  actors : List String
  languages : List String
deriving DecidableEq, Repr

/-- `MovieCreateSchema.date_validation`: reject a release date more than
365 days after `today`. -/
def date_validation (today value : Int) : Except String Int :=
  let max_date := today + 365
  if value > max_date then
    .error "The date must not be more than one year in the future."
  else
    .ok value

/-- `MovieUpdateSchema` under `dict(exclude_unset=True)`: `none` is a
field absent from the patch payload. -/
structure MovieUpdateSchema where
  name : Option String := none
  date : Option Int := none
  score : Option Int := none
  overview : Option String := none
  status : Option MovieStatusEnum := none
  budget : Option Int := none
  revenue : Option Int := none
deriving DecidableEq, Repr

/-- The item shape of the list response (`MovieListItemSchema`). -/
structure MovieListItemSchema where
  id : Nat
  name : String
  date : Int
  score : Int
  overview : String
deriving DecidableEq, Repr

/-- Shape a movie row into its list view. -/
def toListItem (m : MovieModel) : MovieListItemSchema :=
  { id := m.id, name := m.name, date := m.date, score := m.score,
    overview := m.overview }

/-- `MovieListResponseSchema`. -/
structure MovieListResponseSchema where
  movies : List MovieListItemSchema
  prev_page : Option String
  next_page : Option String
  total_pages : Nat
  total_items : Nat
deriving DecidableEq, Repr

/-- `GET /movies/` (`get_movies`): paginated list, ordered by id
descending.  `page` and `per_page` come validated by the query
declarations `Query(1, ge=1)` and `Query(10, ge=1, le=20)`. -/
def get_movies (page per_page : Nat) : Handler MovieListResponseSchema :=
  fun db =>
    let total_items := db.movies.length
    if total_items = 0 then
      .error ⟨404, "No movies found."⟩
    else
      let total_pages := (total_items + per_page - 1) / per_page
      if page > total_pages then
        .error ⟨404, "No movies found."⟩
      else
        let offset := (page - 1) * per_page
        let movies :=
          (((db.movies.mergeSort (fun a b => decide (b.id ≤ a.id))).drop
            offset).take per_page).map toListItem
        if movies = [] then
          .error ⟨404, "No movies found."⟩
        else
          let prev_page : Option String :=
            if page > 1 then
              some s!"/theater/movies/?page={page - 1}&per_page={per_page}"
            else none
          let next_page : Option String :=
            if page < total_pages then
              some s!"/theater/movies/?page={page + 1}&per_page={per_page}"
            else none
          .ok (db, { movies := movies, prev_page := prev_page,
                     next_page := next_page, total_pages := total_pages,
                     total_items := total_items })

/-- `MovieDetailSchema`: the detail response shape (full movie plus the
nested country and related-entity lists). -/
structure MovieDetailSchema where
  id : Nat
  name : String
  date : Int
  score : Int
  overview : String
  status : MovieStatusEnum
  budget : Int
  revenue : Int
  country : CountryModel
  genres : List NamedModel
  actors : List NamedModel
  languages : List NamedModel
deriving DecidableEq, Repr

/-- The related rows of a movie, read back through the association
tables (what `selectinload` materialises). -/
def relatedRows (table : List NamedModel) (assoc : List (Nat × Nat))
    (movieId : Nat) : List NamedModel :=
  (assoc.filter (fun p => p.1 == movieId)).filterMap
    (fun p => table.find? (fun e => e.id == p.2))

/-- Load one movie with its relations (`get_movie`'s query shape). -/
def loadDetail (db : Store) (m : MovieModel) : Option MovieDetailSchema :=
  (db.countries.find? (fun c => c.id == m.countryId)).map fun c =>
    { id := m.id, name := m.name, date := m.date, score := m.score,
      overview := m.overview, status := m.status, budget := m.budget,
      revenue := m.revenue, country := c,
      genres := relatedRows db.genres db.movieGenres m.id,
      actors := relatedRows db.actors db.movieActors m.id,
      languages := relatedRows db.languages db.movieLanguages m.id }

/-- `GET /movies/{movie_id}/` (`get_movie`). -/
def get_movie (movie_id : Nat) : Handler MovieDetailSchema :=
  fun db =>
    match db.movies.find? (fun m => m.id == movie_id) with
    | none => .error ⟨404, "Movie with the given ID was not found."⟩
    | some m =>
      match loadDetail db m with
      | none => .error ⟨500, "Internal Server Error"⟩
      | some d => .ok (db, d)

/-- The inner `get_or_create` of `post_movie`: walk the requested names
in order; for each, look the row up by name and insert (with a
flush, so later iterations see it) when absent.  Returns the updated
table, the updated autoincrement counter, and the ids of the resolved
rows, in request order. -/
def get_or_create (table : List NamedModel) (nextId : Nat) :
    List String → List NamedModel × Nat × List Nat
  | [] => (table, nextId, [])
  | n :: rest =>
    match table.find? (fun e => e.name == n) with
    | some obj =>
      let r := get_or_create table nextId rest
      (r.1, r.2.1, obj.id :: r.2.2)
    | none =>
      let obj : NamedModel := ⟨nextId, n⟩
      let r := get_or_create (table ++ [obj]) (nextId + 1) rest
      (r.1, r.2.1, obj.id :: r.2.2)

/-- The `Conflict` detail string of `post_movie`. -/
def conflictDetail (name : String) (date : Int) : String :=
  s!"A movie with the name \x27{name}\x27 and release date \x27{date}\x27 already exists."

/-- The country-resolution step of `post_movie`: look the code up in the
`countries` table; when absent, resolve the display name through
`countryRef` (the external ISO-3166 reference,
`pycountry.countries.get(alpha_3=…).name`) and insert a new row.  A code
unknown to the reference makes the source raise an uncaught
`AttributeError`, surfaced by the framework as a 500 before anything is
committed.  Returns the resolved row, the updated table and the updated
counter. -/
def resolveCountry (countryRef : String → Option String) (code : String)
    (db : Store) : Except HTTPException (CountryModel × List CountryModel × Nat) :=
  match db.countries.find? (fun c => c.code == code) with
  | some c => .ok (c, db.countries, db.nextCountryId)
  | none =>
    match countryRef code with
    | none => .error ⟨500, "Internal Server Error"⟩
    | some country_name =>
      let c : CountryModel := ⟨db.nextCountryId, code, country_name⟩
      .ok (c, db.countries ++ [c], db.nextCountryId + 1)

/-- The `MovieModel` row built by `post_movie`. -/
def newMovieRow (movie : MovieCreateSchema) (mid countryId : Nat) : MovieModel :=
  { id := mid, name := movie.name, date := movie.date,
    score := movie.score, overview := movie.overview,
    status := movie.status, budget := movie.budget,
    revenue := movie.revenue, countryId := countryId }

/-- The store committed by a successful `post_movie`: the resolved
country table, the three tables extended by `get_or_create`, the new
movie row, and one association row per resolved related entity. -/
def storeAfterCreate (movie : MovieCreateSchema) (db : Store)
    (country : CountryModel) (countries2 : List CountryModel)
    (nextCountryId2 : Nat) : Store :=
  let g := get_or_create db.genres db.nextGenreId movie.genres
  let a := get_or_create db.actors db.nextActorId movie.actors
  let l := get_or_create db.languages db.nextLanguageId movie.languages
  let mid := db.nextMovieId
  { movies := db.movies ++ [newMovieRow movie mid country.id],
    countries := countries2,
    genres := g.1, actors := a.1, languages := l.1,
    movieGenres := db.movieGenres ++ g.2.2.map (fun i => (mid, i)),
    movieActors := db.movieActors ++ a.2.2.map (fun i => (mid, i)),
    movieLanguages := db.movieLanguages ++ l.2.2.map (fun i => (mid, i)),
    nextMovieId := mid + 1,
    nextCountryId := nextCountryId2,
    nextGenreId := g.2.1, nextActorId := a.2.1, nextLanguageId := l.2.1 }

/-- `POST /movies/` (`post_movie`): duplicate check, country resolution,
get-or-create of the three related-entity lists, insertion of the movie
row and its association rows, then one commit; the response is the
freshly created movie re-read with its relations. -/
def post_movie (countryRef : String → Option String)
    (movie : MovieCreateSchema) : Handler MovieDetailSchema :=
  fun db =>
    match db.movies.find?
        (fun x => x.name == movie.name && x.date == movie.date) with
    | some _ => .error ⟨409, conflictDetail movie.name movie.date⟩
    | none =>
      match resolveCountry countryRef movie.country db with
      | .error e => .error e
      | .ok (country, countries2, nextCountryId2) =>
        match loadDetail
            (storeAfterCreate movie db country countries2 nextCountryId2)
            (newMovieRow movie db.nextMovieId country.id) with
        | none => .error ⟨500, "Internal Server Error"⟩
        | some d =>
          .ok (storeAfterCreate movie db country countries2 nextCountryId2, d)

/-- `DELETE /movies/{movie_id}/` (`delete_movie`): remove the movie row;
the ORM cascades the delete to the association rows of that movie and to
nothing else. -/
def delete_movie (movie_id : Nat) : Handler Unit :=
  fun db =>
    match db.movies.find? (fun m => m.id == movie_id) with
    | none => .error ⟨404, "Movie with the given ID was not found."⟩
    | some _ =>
      .ok ({ db with
              movies := db.movies.filter (fun m => m.id != movie_id),
              movieGenres := db.movieGenres.filter (fun p => p.1 != movie_id),
              movieActors := db.movieActors.filter (fun p => p.1 != movie_id),
              movieLanguages :=
                db.movieLanguages.filter (fun p => p.1 != movie_id) }, ())

/-- The `setattr` loop of `update_movie` applied to one row: every field
present in `dict(exclude_unset=True)` is written, absent fields are
left alone. -/
def applyUpdate (u : MovieUpdateSchema) (m : MovieModel) : MovieModel :=
  { m with
    name := u.name.getD m.name,
    date := u.date.getD m.date,
    score := u.score.getD m.score,
    overview := u.overview.getD m.overview,
    status := u.status.getD m.status,
    budget := u.budget.getD m.budget,
    revenue := u.revenue.getD m.revenue }

/-- `PATCH /movies/{movie_id}/` (`update_movie`). -/
def update_movie (movie_id : Nat) (movie_update : MovieUpdateSchema) :
    Handler String :=
  fun db =>
    match db.movies.find? (fun m => m.id == movie_id) with
    | none => .error ⟨404, "Movie with the given ID was not found."⟩
    | some _ =>
      .ok ({ db with
              movies := db.movies.map
                (fun m => if m.id == movie_id then applyUpdate movie_update m
                          else m) }, "Movie updated successfully.")

/-- The lookup-table invariant: no two rows share a name. -/
def NamesUnique (t : List NamedModel) : Prop :=
  t.Pairwise (fun a b => a.name ≠ b.name)

/-- A fresh, empty database. -/
def emptyStore : Store :=
  { movies := [], countries := [], genres := [], actors := [], languages := [],
    movieGenres := [], movieActors := [], movieLanguages := [],
    nextMovieId := 1, nextCountryId := 1, nextGenreId := 1, nextActorId := 1,
    nextLanguageId := 1 }

/-- A concrete movie row, for the witnesses. -/
def sampleMovieRow (i : Nat) : MovieModel :=
  { id := i, name := s!"Movie {i}", date := 0, score := 50, overview := "o",
    status := .released, budget := 0, revenue := 0, countryId := 1 }

/-- A concrete country row, for the witnesses. -/
def sampleCountry : CountryModel := ⟨1, "USA", "United States"⟩

/-- A catalog of five movies, for the witnesses. -/
def store5 : Store :=
  { emptyStore with
      movies := [sampleMovieRow 5, sampleMovieRow 4, sampleMovieRow 3,
                 sampleMovieRow 2, sampleMovieRow 1],
      countries := [sampleCountry], nextMovieId := 6, nextCountryId := 2 }

/-- A concrete external country reference, for the witnesses. -/
def sampleRef : String → Option String :=
  fun c => if c == "USA" then some "United States" else none

/-- A concrete create payload, for the witnesses. -/
def sampleCreate : MovieCreateSchema :=
  { name := "Dune", date := 10, score := 90, overview := "desert",
    status := .released, budget := 0, revenue := 0, country := "USA",
    genres := ["Sci-Fi"], actors := ["Alice"], languages := ["English"] }

/-- A store already holding the sample movie, for the witnesses. -/
def storeWithDune : Store :=
  { emptyStore with
      movies := [newMovieRow sampleCreate 1 1],
      countries := [sampleCountry],
      genres := [⟨1, "Sci-Fi"⟩], actors := [⟨1, "Alice"⟩],
      languages := [⟨1, "English"⟩],
      movieGenres := [(1, 1)], movieActors := [(1, 1)],
      movieLanguages := [(1, 1)],
      nextMovieId := 2, nextCountryId := 2, nextGenreId := 2,
      nextActorId := 2, nextLanguageId := 2 }

/-- A second create payload sharing the related-entity names of
`sampleCreate` but a fresh (name, date) pair, for the witnesses. -/
def sampleCreate2 : MovieCreateSchema :=
  { sampleCreate with name := "Dune Part Two", date := 20 }

/-! ### Theorems -/

/-- C9: a create payload fails `date_validation` with a descriptive error
exactly when its release date is more than 365 days after the current
date; a date exactly 365 days in the future, or any past date, passes. -/
theorem date_validation_iff_future (today value : Int) :
    (date_validation today value =
        .error "The date must not be more than one year in the future." ↔
      value > today + 365) ∧
    (value ≤ today + 365 → date_validation today value = .ok value) := by
  unfold date_validation
  by_cases h : value > today + 365 <;> simp [h]

/-- C9, witness: day 365 from today and a past date pass, day 366 fails. -/
theorem date_validation_iff_future_witness :
    date_validation 0 365 = .ok 365 ∧ date_validation 0 (-1) = .ok (-1) ∧
      date_validation 0 366 =
        .error "The date must not be more than one year in the future." :=
  ⟨(date_validation_iff_future 0 365).2 (by norm_num),
   (date_validation_iff_future 0 (-1)).2 (by norm_num),
   (date_validation_iff_future 0 366).1.mpr (by norm_num)⟩

/-- Arithmetic of the page window: a page within `total_pages` starts
strictly inside the table. -/
theorem offset_lt_total (total page per : Nat) (hper : 1 ≤ per)
    (htotal : 0 < total) (hpage : 1 ≤ page)
    (hle : page ≤ (total + per - 1) / per) : (page - 1) * per < total := by
  have h1 : ((total + per - 1) / per) * per ≤ total + per - 1 :=
    Nat.div_mul_le_self _ _
  have h2 : (page - 1) * per + per ≤ ((total + per - 1) / per) * per := by
    calc (page - 1) * per + per = ((page - 1) + 1) * per := by ring
      _ ≤ ((total + per - 1) / per) * per :=
        Nat.mul_le_mul_right per (by omega)
  have h4 : (page - 1) * per + per ≤ total + per - 1 := le_trans h2 h1
  have h5 : total + per - 1 = (total - 1) + per := by omega
  rw [h5] at h4
  exact Nat.lt_of_le_of_lt (Nat.le_of_add_le_add_right h4)
    (Nat.sub_lt htotal Nat.one_pos)

/-- A list request with a nonzero catalog and an in-range page succeeds,
returning the code's page window and pagination fields. -/
theorem get_movies_ok (page per_page : Nat) (db : Store)
    (hpage : 1 ≤ page) (hper : 1 ≤ per_page)
    (h0 : db.movies.length ≠ 0)
    (hle : page ≤ (db.movies.length + per_page - 1) / per_page) :
    get_movies page per_page db = .ok (db,
      { movies := (((db.movies.mergeSort (fun a b => decide (b.id ≤ a.id))).drop
            ((page - 1) * per_page)).take per_page).map toListItem,
        prev_page :=
          if page > 1 then
            some s!"/theater/movies/?page={page - 1}&per_page={per_page}"
          else none,
        next_page :=
          if page < (db.movies.length + per_page - 1) / per_page then
            some s!"/theater/movies/?page={page + 1}&per_page={per_page}"
          else none,
        total_pages := (db.movies.length + per_page - 1) / per_page,
        total_items := db.movies.length }) := by
  have hoff : (page - 1) * per_page < db.movies.length :=
    offset_lt_total _ _ _ hper (Nat.pos_of_ne_zero h0) hpage hle
  have hne : (((db.movies.mergeSort (fun a b => decide (b.id ≤ a.id))).drop
      ((page - 1) * per_page)).take per_page).map toListItem ≠ [] := by
    intro heq
    have hlen := congrArg List.length heq
    simp only [List.length_map, List.length_take, List.length_drop,
      List.length_mergeSort, List.length_nil] at hlen
    rcases Nat.min_eq_zero_iff.mp hlen with h | h
    · omega
    · exact absurd (Nat.lt_of_lt_of_le hoff (Nat.sub_eq_zero_iff_le.mp h))
        (lt_irrefl _)
  simp only [get_movies]
  rw [if_neg h0, if_neg (Nat.not_lt.mpr hle), if_neg hne]

/-- C6: a list request fails with 404 exactly when the catalog is empty
or the requested page exceeds `total_pages` (the ceiling of
`total_items / per_page`). -/
theorem get_movies_not_found_iff (page per_page : Nat) (db : Store)
    (hpage : 1 ≤ page) (hper1 : 1 ≤ per_page) (hper2 : per_page ≤ 20) :
    get_movies page per_page db = .error ⟨404, "No movies found."⟩ ↔
      (db.movies.length = 0 ∨ db.movies.length ⌈/⌉ per_page < page) := by
  have hceil : db.movies.length ⌈/⌉ per_page =
      (db.movies.length + per_page - 1) / per_page := rfl
  rw [hceil]
  constructor
  · intro h
    by_cases h0 : db.movies.length = 0
    · exact .inl h0
    by_cases h1 : (db.movies.length + per_page - 1) / per_page < page
    · exact .inr h1
    · rw [get_movies_ok page per_page db hpage hper1 h0 (Nat.not_lt.mp h1)] at h
      simp at h
  · intro h
    by_cases h0 : db.movies.length = 0
    · simp only [get_movies]
      rw [if_pos h0]
    · rcases h with h | h1
      · exact absurd h h0
      · simp only [get_movies]
        rw [if_neg h0, if_pos h1]

/-- C6, witness: page 999 with page size 10 on a catalog of 5 items is a
404. -/
theorem get_movies_not_found_iff_witness :
    get_movies 999 10 store5 = .error ⟨404, "No movies found."⟩ :=
  (get_movies_not_found_iff 999 10 store5 (by decide) (by decide)
    (by decide)).mpr (.inr (by decide))

/-- C1: a list request on a nonzero catalog with an in-range page returns
`total_pages` equal to the ceiling of `total_items / per_page`,
`prev_page` null exactly on the first page, and `next_page` null exactly
on the last page. -/
theorem get_movies_pagination (page per_page : Nat) (db : Store)
    (htotal : 0 < db.movies.length) (hpage : 1 ≤ page)
    (hper1 : 1 ≤ per_page) (hper2 : per_page ≤ 20)
    (hin : page ≤ db.movies.length ⌈/⌉ per_page) :
    ∃ r, get_movies page per_page db = .ok (db, r) ∧
      r.total_items = db.movies.length ∧
      r.total_pages = db.movies.length ⌈/⌉ per_page ∧
      (r.prev_page = none ↔ page = 1) ∧
      (r.next_page = none ↔ page = r.total_pages) := by
  refine ⟨_, get_movies_ok page per_page db hpage hper1 (by omega) hin,
    rfl, rfl, ?_, ?_⟩
  · by_cases h : page > 1
    · simp only [if_pos h]
      constructor
      · intro hc
        exact absurd hc (by simp)
      · intro hc
        omega
    · simp only [if_neg h]
      constructor
      · intro _
        omega
      · intro _
        trivial
  · by_cases h : page < (db.movies.length + per_page - 1) / per_page
    · simp only [if_pos h]
      constructor
      · intro hc
        exact absurd hc (by simp)
      · intro hc
        exact absurd hc (Nat.ne_of_lt h)
    · simp only [if_neg h]
      constructor
      · intro _
        exact Nat.le_antisymm hin (Nat.not_lt.mp h)
      · intro _
        trivial

/-- C1, witness: a single page of 5 items has `total_pages = 1` and both
links null. -/
theorem get_movies_pagination_witness :
    ∃ r, get_movies 1 10 store5 = .ok (store5, r) ∧
      r.total_items = 5 ∧ r.total_pages = 1 ∧
      r.prev_page = none ∧ r.next_page = none := by
  obtain ⟨r, hok, hti, htp, hprev, hnext⟩ :=
    get_movies_pagination 1 10 store5 (by decide) (by decide) (by decide)
      (by decide) (by decide)
  refine ⟨r, hok, ?_, ?_, hprev.mpr rfl, ?_⟩
  · rw [hti]
    decide
  · rw [htp]
    decide
  · exact hnext.mpr (by rw [htp]; decide)

/-- Two rows of a name-unique table with the same name are the same row. -/
theorem namesUnique_inj {t : List NamedModel} (h : NamesUnique t)
    {a b : NamedModel} (ha : a ∈ t) (hb : b ∈ t)
    (hname : a.name = b.name) : a = b := by
  by_contra hne
  have hsymm : Symmetric (fun a b : NamedModel => a.name ≠ b.name) := by
    intro x y hxy hyx
    exact hxy hyx.symm
  exact h.forall hsymm ha hb hne hname

/-- Appending a row whose name the table lacks keeps names unique. -/
theorem namesUnique_append_new (t : List NamedModel) (ni : Nat) (n : String)
    (h : NamesUnique t) (hf : t.find? (fun e => e.name == n) = none) :
    NamesUnique (t ++ [⟨ni, n⟩]) := by
  have hall := List.find?_eq_none.mp hf
  unfold NamesUnique at h ⊢
  rw [List.pairwise_append]
  refine ⟨h, List.pairwise_singleton _ _, ?_⟩
  intro a ha b hb
  have hb1 : b = ⟨ni, n⟩ := by simpa using hb
  subst hb1
  simpa using hall a ha

/-- `get_or_create` only ever appends rows to the table. -/
theorem get_or_create_table_append (ns : List String) (t : List NamedModel)
    (ni : Nat) : ∃ ext, (get_or_create t ni ns).1 = t ++ ext := by
  induction ns generalizing t ni with
  | nil => exact ⟨[], by simp [get_or_create]⟩
  | cons n rest ih =>
    unfold get_or_create
    cases hf : t.find? (fun e => e.name == n) with
    | some obj =>
      simpa using ih t ni
    | none =>
      obtain ⟨ext, hext⟩ := ih (t ++ [⟨ni, n⟩]) (ni + 1)
      exact ⟨⟨ni, n⟩ :: ext, by simp [hext]⟩

/-- Rows survive `get_or_create`. -/
theorem get_or_create_mem (ns : List String) (t : List NamedModel) (ni : Nat)
    {e : NamedModel} (he : e ∈ t) : e ∈ (get_or_create t ni ns).1 := by
  obtain ⟨ext, hext⟩ := get_or_create_table_append ns t ni
  rw [hext]
  exact List.mem_append_left _ he

/-- `get_or_create` preserves name uniqueness. -/
theorem get_or_create_namesUnique (ns : List String) (t : List NamedModel)
    (ni : Nat) (h : NamesUnique t) : NamesUnique (get_or_create t ni ns).1 := by
  induction ns generalizing t ni with
  | nil => exact h
  | cons n rest ih =>
    unfold get_or_create
    cases hf : t.find? (fun e => e.name == n) with
    | some obj =>
      simpa using ih t ni h
    | none =>
      simpa using ih (t ++ [⟨ni, n⟩]) (ni + 1) (namesUnique_append_new t ni n h hf)

/-- A requested name already in a name-unique table resolves to the id of
its existing row. -/
theorem get_or_create_existing (ns : List String) (t : List NamedModel)
    (ni : Nat) (e : NamedModel) (h : NamesUnique t) (he : e ∈ t)
    (hn : e.name ∈ ns) : e.id ∈ (get_or_create t ni ns).2.2 := by
  induction ns generalizing t ni with
  | nil => cases hn
  | cons n rest ih =>
    unfold get_or_create
    cases hf : t.find? (fun x => x.name == n) with
    | some obj =>
      rcases List.mem_cons.mp hn with heq | hmem
      · have hobj : obj.name = n := by simpa using List.find?_some hf
        have : obj = e :=
          namesUnique_inj h (List.mem_of_find?_eq_some hf) he (by rw [hobj, heq])
        subst this
        simp
      · simpa using .inr (ih t ni h he hmem)
    | none =>
      rcases List.mem_cons.mp hn with heq | hmem
      · have hall := List.find?_eq_none.mp hf
        have := hall e he
        rw [heq] at this
        simp at this
      · have h2 : NamesUnique (t ++ [⟨ni, n⟩]) := namesUnique_append_new t ni n h hf
        have he2 : e ∈ t ++ [⟨ni, n⟩] := List.mem_append_left _ he
        simpa using .inr (ih (t ++ [⟨ni, n⟩]) (ni + 1) h2 he2 hmem)

/-- Every requested name resolves to a row of the final table whose id is
among the returned ids. -/
theorem get_or_create_resolves (ns : List String) (t : List NamedModel)
    (ni : Nat) : ∀ n ∈ ns, ∃ e, e ∈ (get_or_create t ni ns).1 ∧
      e.name = n ∧ e.id ∈ (get_or_create t ni ns).2.2 := by
  induction ns generalizing t ni with
  | nil => intro n hn; cases hn
  | cons n rest ih =>
    intro n2 hn2
    unfold get_or_create
    cases hf : t.find? (fun e => e.name == n) with
    | some obj =>
      rcases List.mem_cons.mp hn2 with heq | hmem
      · subst heq
        refine ⟨obj, ?_, by simpa using List.find?_some hf, by simp⟩
        simpa using get_or_create_mem rest t ni (List.mem_of_find?_eq_some hf)
      · obtain ⟨e, he1, he2, he3⟩ := ih t ni n2 hmem
        exact ⟨e, by simpa using he1, he2, by simpa using .inr he3⟩
    | none =>
      rcases List.mem_cons.mp hn2 with heq | hmem
      · subst heq
        refine ⟨⟨ni, n2⟩, ?_, rfl, by simp⟩
        have : (⟨ni, n2⟩ : NamedModel) ∈ t ++ [⟨ni, n2⟩] := by simp
        simpa using get_or_create_mem rest (t ++ [⟨ni, n2⟩]) (ni + 1) this
      · obtain ⟨e, he1, he2, he3⟩ := ih (t ++ [⟨ni, n⟩]) (ni + 1) n2 hmem
        exact ⟨e, by simpa using he1, he2, by simpa using .inr he3⟩


/-- Inversion of the country-resolution step of `post_movie`. -/
theorem resolveCountry_ok_inv (ref : String → Option String) (code : String)
    (db : Store) (c : CountryModel) (cs2 : List CountryModel) (ni2 : Nat)
    (h : resolveCountry ref code db = .ok (c, cs2, ni2)) :
    (db.countries.find? (fun x => x.code == code) = some c ∧
      cs2 = db.countries ∧ ni2 = db.nextCountryId) ∨
    (db.countries.find? (fun x => x.code == code) = none ∧
      ∃ nm, ref code = some nm ∧ c = ⟨db.nextCountryId, code, nm⟩ ∧
        cs2 = db.countries ++ [c] ∧ ni2 = db.nextCountryId + 1) := by
  unfold resolveCountry at h
  split at h
  next c0 hf =>
    simp only [Except.ok.injEq, Prod.mk.injEq] at h
    obtain ⟨rfl, rfl, rfl⟩ := h
    exact .inl ⟨hf, rfl, rfl⟩
  next hf =>
    split at h
    next href => cases h
    next nm href =>
      simp only [Except.ok.injEq, Prod.mk.injEq] at h
      obtain ⟨rfl, rfl, rfl⟩ := h
      exact .inr ⟨hf, nm, href, rfl, rfl, rfl⟩

/-- What a successful relation-loading read guarantees about the shaped
response. -/
theorem loadDetail_some_inv (db : Store) (m : MovieModel)
    (d : MovieDetailSchema) (h : loadDetail db m = some d) :
    d.id = m.id ∧ d.country ∈ db.countries ∧ d.country.id = m.countryId := by
  unfold loadDetail at h
  cases hf : db.countries.find? (fun c => c.id == m.countryId) with
  | none => rw [hf] at h; cases h
  | some c =>
    rw [hf] at h
    have hc := List.mem_of_find?_eq_some hf
    have hcid : c.id = m.countryId := by simpa using List.find?_some hf
    cases h
    exact ⟨rfl, hc, hcid⟩

/-- Inversion of a successful `post_movie`. -/
theorem post_movie_ok_inv (ref : String → Option String)
    (m : MovieCreateSchema) (db db2 : Store) (d : MovieDetailSchema)
    (hok : post_movie ref m db = .ok (db2, d)) :
    ∃ c cs2 ni2,
      db.movies.find? (fun x => x.name == m.name && x.date == m.date) = none ∧
      resolveCountry ref m.country db = .ok (c, cs2, ni2) ∧
      db2 = storeAfterCreate m db c cs2 ni2 ∧
      loadDetail db2 (newMovieRow m db.nextMovieId c.id) = some d := by
  unfold post_movie at hok
  split at hok
  · cases hok
  next hfind =>
    split at hok
    · cases hok
    next c cs2 ni2 hres =>
      split at hok
      · cases hok
      next d0 hload =>
        simp only [Except.ok.injEq, Prod.mk.injEq] at hok
        obtain ⟨rfl, rfl⟩ := hok
        exact ⟨c, cs2, ni2, hfind, hres, rfl, hload⟩


/-- C3: creating a movie whose (name, date) pair already exists fails
with 409 Conflict and leaves the store unchanged; moreover a successful
create inserts that pair, so creating two movies with identical
(name, date) yields Conflict on the second. -/
theorem post_movie_conflict (ref ref2 : String → Option String)
    (m m2 : MovieCreateSchema) (db : Store) :
    ((∃ x ∈ db.movies, x.name = m.name ∧ x.date = m.date) →
      post_movie ref m db = .error ⟨409, conflictDetail m.name m.date⟩ ∧
      (run (post_movie ref m) db).2 = db) ∧
    (∀ db2 d, post_movie ref m db = .ok (db2, d) → m2.name = m.name →
      m2.date = m.date →
      post_movie ref2 m2 db2 = .error ⟨409, conflictDetail m2.name m2.date⟩) := by
  constructor
  · rintro ⟨x, hx, hname, hdate⟩
    have hpost : post_movie ref m db =
        .error ⟨409, conflictDetail m.name m.date⟩ := by
      cases hf : db.movies.find?
          (fun x => x.name == m.name && x.date == m.date) with
      | none =>
        have := List.find?_eq_none.mp hf x hx
        simp [hname, hdate] at this
      | some y =>
        unfold post_movie
        rw [hf]
    refine ⟨hpost, ?_⟩
    unfold run
    rw [hpost]
  · intro db2 d hok hname hdate
    obtain ⟨c, cs2, ni2, hfind, hres, hdb2, hload⟩ :=
      post_movie_ok_inv ref m db db2 d hok
    have hmem : newMovieRow m db.nextMovieId c.id ∈ db2.movies := by
      rw [hdb2]
      simp [storeAfterCreate]
    cases hf2 : db2.movies.find?
        (fun x => x.name == m2.name && x.date == m2.date) with
    | none =>
      have := List.find?_eq_none.mp hf2 _ hmem
      simp [newMovieRow, hname, hdate] at this
    | some y =>
      unfold post_movie
      rw [hf2]

/-- C3, witness: posting a payload whose (name, date) pair is already in
the store is rejected with 409 and the store is unchanged. -/
theorem post_movie_conflict_witness :
    post_movie sampleRef sampleCreate storeWithDune =
      .error ⟨409, conflictDetail sampleCreate.name sampleCreate.date⟩ ∧
    (run (post_movie sampleRef sampleCreate) storeWithDune).2 = storeWithDune :=
  (post_movie_conflict sampleRef sampleRef sampleCreate sampleCreate
    storeWithDune).1 ⟨newMovieRow sampleCreate 1 1, by decide, rfl, rfl⟩


/-- C2: a successful create keeps the genre, actor and language tables
free of duplicate names, and every requested name that already had a row
resolves to that pre-existing row (no second row with the name appears),
with the new movie linked to it. -/
theorem post_movie_dedup (ref : String → Option String)
    (m : MovieCreateSchema) (db db2 : Store) (d : MovieDetailSchema)
    (hg : NamesUnique db.genres) (ha : NamesUnique db.actors)
    (hl : NamesUnique db.languages)
    (hok : post_movie ref m db = .ok (db2, d)) :
    (NamesUnique db2.genres ∧ NamesUnique db2.actors ∧
      NamesUnique db2.languages) ∧
    (∀ e ∈ db.genres, e.name ∈ m.genres →
      (∀ e2 ∈ db2.genres, e2.name = e.name → e2 = e) ∧
      (d.id, e.id) ∈ db2.movieGenres) ∧
    (∀ e ∈ db.actors, e.name ∈ m.actors →
      (∀ e2 ∈ db2.actors, e2.name = e.name → e2 = e) ∧
      (d.id, e.id) ∈ db2.movieActors) ∧
    (∀ e ∈ db.languages, e.name ∈ m.languages →
      (∀ e2 ∈ db2.languages, e2.name = e.name → e2 = e) ∧
      (d.id, e.id) ∈ db2.movieLanguages) := by
  obtain ⟨c, cs2, ni2, hfind, hres, hdb2, hload⟩ :=
    post_movie_ok_inv ref m db db2 d hok
  have hid : d.id = db.nextMovieId := by
    simpa [newMovieRow] using (loadDetail_some_inv _ _ _ hload).1
  have hgen : db2.genres =
      (get_or_create db.genres db.nextGenreId m.genres).1 := by
    rw [hdb2]
    rfl
  have hact : db2.actors =
      (get_or_create db.actors db.nextActorId m.actors).1 := by
    rw [hdb2]
    rfl
  have hlang : db2.languages =
      (get_or_create db.languages db.nextLanguageId m.languages).1 := by
    rw [hdb2]
    rfl
  have hmg : db2.movieGenres = db.movieGenres ++
      ((get_or_create db.genres db.nextGenreId m.genres).2.2.map
        (fun i => (db.nextMovieId, i))) := by
    rw [hdb2]
    rfl
  have hma : db2.movieActors = db.movieActors ++
      ((get_or_create db.actors db.nextActorId m.actors).2.2.map
        (fun i => (db.nextMovieId, i))) := by
    rw [hdb2]
    rfl
  have hml : db2.movieLanguages = db.movieLanguages ++
      ((get_or_create db.languages db.nextLanguageId m.languages).2.2.map
        (fun i => (db.nextMovieId, i))) := by
    rw [hdb2]
    rfl
  refine ⟨⟨?_, ?_, ?_⟩, ?_, ?_, ?_⟩
  · rw [hgen]
    exact get_or_create_namesUnique _ _ _ hg
  · rw [hact]
    exact get_or_create_namesUnique _ _ _ ha
  · rw [hlang]
    exact get_or_create_namesUnique _ _ _ hl
  · intro e he hn
    constructor
    · intro e2 he2 hname
      rw [hgen] at he2
      exact namesUnique_inj (get_or_create_namesUnique _ _ _ hg) he2
        (get_or_create_mem _ _ _ he) hname
    · rw [hmg, hid]
      exact List.mem_append_right _ (List.mem_map.mpr
        ⟨e.id, get_or_create_existing _ _ _ e hg he hn, rfl⟩)
  · intro e he hn
    constructor
    · intro e2 he2 hname
      rw [hact] at he2
      exact namesUnique_inj (get_or_create_namesUnique _ _ _ ha) he2
        (get_or_create_mem _ _ _ he) hname
    · rw [hma, hid]
      exact List.mem_append_right _ (List.mem_map.mpr
        ⟨e.id, get_or_create_existing _ _ _ e ha he hn, rfl⟩)
  · intro e he hn
    constructor
    · intro e2 he2 hname
      rw [hlang] at he2
      exact namesUnique_inj (get_or_create_namesUnique _ _ _ hl) he2
        (get_or_create_mem _ _ _ he) hname
    · rw [hml, hid]
      exact List.mem_append_right _ (List.mem_map.mpr
        ⟨e.id, get_or_create_existing _ _ _ e hl he hn, rfl⟩)

/-- C2, witness: creating a second movie that names the existing genre
"Sci-Fi" reuses genre row 1 (no duplicate appears) and links the new
movie to it. -/
theorem post_movie_dedup_witness :
    ∃ db2 d, post_movie sampleRef sampleCreate2 storeWithDune = .ok (db2, d) ∧
      (∀ e2 ∈ db2.genres, e2.name = "Sci-Fi" → e2 = ⟨1, "Sci-Fi"⟩) ∧
      (d.id, 1) ∈ db2.movieGenres := by
  cases hres : post_movie sampleRef sampleCreate2 storeWithDune with
  | error e =>
    have hok : (post_movie sampleRef sampleCreate2 storeWithDune).isOk = true := by
      decide
    rw [hres] at hok
    exact Bool.noConfusion hok
  | ok p =>
    obtain ⟨db2, d⟩ := p
    have h := (post_movie_dedup sampleRef sampleCreate2 storeWithDune db2 d
      (by unfold NamesUnique; decide) (by unfold NamesUnique; decide)
      (by unfold NamesUnique; decide) hres).2.1 ⟨1, "Sci-Fi"⟩
      (by decide) (by decide)
    exact ⟨db2, d, rfl, h.1, h.2⟩


/-- C5: creation is all-or-nothing: either the request fails and the
committed store is unchanged, or it succeeds and the committed store
holds the movie row, its resolved country, and a row plus link for every
requested genre, actor and language name. -/
theorem post_movie_atomic (ref : String → Option String)
    (m : MovieCreateSchema) (db : Store) :
    (∃ e, post_movie ref m db = .error e ∧
      (run (post_movie ref m) db).2 = db) ∨
    (∃ db2 d, post_movie ref m db = .ok (db2, d) ∧
      (run (post_movie ref m) db).2 = db2 ∧
      (∃ mv ∈ db2.movies, mv.id = d.id ∧ mv.countryId = d.country.id) ∧
      d.country ∈ db2.countries ∧
      (∀ n ∈ m.genres, ∃ e ∈ db2.genres, e.name = n ∧
        (d.id, e.id) ∈ db2.movieGenres) ∧
      (∀ n ∈ m.actors, ∃ e ∈ db2.actors, e.name = n ∧
        (d.id, e.id) ∈ db2.movieActors) ∧
      (∀ n ∈ m.languages, ∃ e ∈ db2.languages, e.name = n ∧
        (d.id, e.id) ∈ db2.movieLanguages)) := by
  cases hres : post_movie ref m db with
  | error e =>
    left
    refine ⟨e, rfl, ?_⟩
    unfold run
    rw [hres]
  | ok p =>
    obtain ⟨db2, d⟩ := p
    right
    obtain ⟨c, cs2, ni2, hfind, hresc, hdb2, hload⟩ :=
      post_movie_ok_inv ref m db db2 d hres
    obtain ⟨hid, hcmem, hcid⟩ := loadDetail_some_inv _ _ _ hload
    have hid2 : d.id = db.nextMovieId := by simpa [newMovieRow] using hid
    have hmovies : db2.movies =
        db.movies ++ [newMovieRow m db.nextMovieId c.id] := by
      rw [hdb2]
      rfl
    have hgen : db2.genres =
        (get_or_create db.genres db.nextGenreId m.genres).1 := by
      rw [hdb2]
      rfl
    have hact : db2.actors =
        (get_or_create db.actors db.nextActorId m.actors).1 := by
      rw [hdb2]
      rfl
    have hlang : db2.languages =
        (get_or_create db.languages db.nextLanguageId m.languages).1 := by
      rw [hdb2]
      rfl
    have hmg : db2.movieGenres = db.movieGenres ++
        ((get_or_create db.genres db.nextGenreId m.genres).2.2.map
          (fun i => (db.nextMovieId, i))) := by
      rw [hdb2]
      rfl
    have hma : db2.movieActors = db.movieActors ++
        ((get_or_create db.actors db.nextActorId m.actors).2.2.map
          (fun i => (db.nextMovieId, i))) := by
      rw [hdb2]
      rfl
    have hml : db2.movieLanguages = db.movieLanguages ++
        ((get_or_create db.languages db.nextLanguageId m.languages).2.2.map
          (fun i => (db.nextMovieId, i))) := by
      rw [hdb2]
      rfl
    refine ⟨db2, d, rfl, by unfold run; rw [hres], ?_, hcmem, ?_, ?_, ?_⟩
    · refine ⟨newMovieRow m db.nextMovieId c.id, ?_, ?_, ?_⟩
      · rw [hmovies]
        simp
      · exact hid.symm
      · simpa [newMovieRow] using hcid.symm
    · intro n hn
      obtain ⟨e, he1, he2, he3⟩ :=
        get_or_create_resolves m.genres db.genres db.nextGenreId n hn
      refine ⟨e, by rw [hgen]; exact he1, he2, ?_⟩
      rw [hmg, hid2]
      exact List.mem_append_right _ (List.mem_map.mpr ⟨e.id, he3, rfl⟩)
    · intro n hn
      obtain ⟨e, he1, he2, he3⟩ :=
        get_or_create_resolves m.actors db.actors db.nextActorId n hn
      refine ⟨e, by rw [hact]; exact he1, he2, ?_⟩
      rw [hma, hid2]
      exact List.mem_append_right _ (List.mem_map.mpr ⟨e.id, he3, rfl⟩)
    · intro n hn
      obtain ⟨e, he1, he2, he3⟩ :=
        get_or_create_resolves m.languages db.languages db.nextLanguageId n hn
      refine ⟨e, by rw [hlang]; exact he1, he2, ?_⟩
      rw [hml, hid2]
      exact List.mem_append_right _ (List.mem_map.mpr ⟨e.id, he3, rfl⟩)

/-- C8: country resolution on create: an already-present code is reused
and the countries table is unchanged, an absent code is resolved through
the external reference and inserted with that code and name; either way
the created movie references the resolved row. -/
theorem post_movie_country (ref : String → Option String)
    (m : MovieCreateSchema) (db db2 : Store) (d : MovieDetailSchema)
    (hok : post_movie ref m db = .ok (db2, d)) :
    (∀ c, db.countries.find? (fun x => x.code == m.country) = some c →
      db2.countries = db.countries ∧
      ∃ mv ∈ db2.movies, mv.id = d.id ∧ mv.countryId = c.id) ∧
    (db.countries.find? (fun x => x.code == m.country) = none →
      ∃ nm, ref m.country = some nm ∧
        db2.countries = db.countries ++ [⟨db.nextCountryId, m.country, nm⟩] ∧
        ∃ mv ∈ db2.movies, mv.id = d.id ∧
          mv.countryId = db.nextCountryId) := by
  obtain ⟨c, cs2, ni2, hfind, hresc, hdb2, hload⟩ :=
    post_movie_ok_inv ref m db db2 d hok
  obtain ⟨hid, hcmem, hcid⟩ := loadDetail_some_inv _ _ _ hload
  have hcountries : db2.countries = cs2 := by
    rw [hdb2]
    rfl
  have hmovies : db2.movies =
      db.movies ++ [newMovieRow m db.nextMovieId c.id] := by
    rw [hdb2]
    rfl
  have hmv : newMovieRow m db.nextMovieId c.id ∈ db2.movies := by
    rw [hmovies]
    simp
  rcases resolveCountry_ok_inv ref m.country db c cs2 ni2 hresc with
    ⟨hf, hcs, -⟩ | ⟨hf, nm, href, hc, hcs, -⟩
  · constructor
    · intro c0 hc0
      have hcc : c = c0 := by
        have := hf.symm.trans hc0
        simpa using this
      subst hcc
      exact ⟨hcountries.trans hcs, newMovieRow m db.nextMovieId c.id, hmv,
        hid.symm, rfl⟩
    · intro habs
      rw [hf] at habs
      cases habs
  · constructor
    · intro c0 hc0
      rw [hf] at hc0
      cases hc0
    · intro _
      refine ⟨nm, href, ?_, newMovieRow m db.nextMovieId c.id, hmv,
        hid.symm, ?_⟩
      · rw [hcountries, hcs, hc]
      · simp [newMovieRow, hc]

/-- C8, witness: creating the sample movie on an empty store resolves
"USA" through the external reference and inserts the Country row. -/
theorem post_movie_country_witness :
    ∃ db2 d, post_movie sampleRef sampleCreate emptyStore = .ok (db2, d) ∧
      db2.countries = [⟨1, "USA", "United States"⟩] := by
  cases hres : post_movie sampleRef sampleCreate emptyStore with
  | error e =>
    have hok : (post_movie sampleRef sampleCreate emptyStore).isOk = true := by
      decide
    rw [hres] at hok
    exact Bool.noConfusion hok
  | ok p =>
    obtain ⟨db2, d⟩ := p
    obtain ⟨nm, hnm, hcs, -⟩ :=
      (post_movie_country sampleRef sampleCreate emptyStore db2 d hres).2
        (by decide)
    have hnm2 : nm = "United States" :=
      Option.some.inj (hnm.symm.trans (by decide))
    subst hnm2
    exact ⟨db2, d, rfl, by rw [hcs]; rfl⟩


/-- C7: deleting an absent id fails with 404 and leaves the store
unchanged; deleting a present id removes the movie row and its link rows
while keeping every other movie and every genre, actor, language and
country row. -/
theorem delete_movie_spec (movie_id : Nat) (db : Store) :
    (db.movies.find? (fun m => m.id == movie_id) = none →
      delete_movie movie_id db =
        .error ⟨404, "Movie with the given ID was not found."⟩ ∧
      (run (delete_movie movie_id) db).2 = db) ∧
    (∀ db2, delete_movie movie_id db = .ok (db2, ()) →
      (∀ mv ∈ db2.movies, mv.id ≠ movie_id) ∧
      (∀ mv ∈ db.movies, mv.id ≠ movie_id → mv ∈ db2.movies) ∧
      (∀ p ∈ db2.movieGenres, p.1 ≠ movie_id) ∧
      (∀ p ∈ db.movieGenres, p.1 ≠ movie_id → p ∈ db2.movieGenres) ∧
      (∀ p ∈ db2.movieActors, p.1 ≠ movie_id) ∧
      (∀ p ∈ db.movieActors, p.1 ≠ movie_id → p ∈ db2.movieActors) ∧
      (∀ p ∈ db2.movieLanguages, p.1 ≠ movie_id) ∧
      (∀ p ∈ db.movieLanguages, p.1 ≠ movie_id → p ∈ db2.movieLanguages) ∧
      db2.genres = db.genres ∧ db2.actors = db.actors ∧
      db2.languages = db.languages ∧ db2.countries = db.countries) := by
  constructor
  · intro hf
    have herr : delete_movie movie_id db =
        .error ⟨404, "Movie with the given ID was not found."⟩ := by
      unfold delete_movie
      rw [hf]
    refine ⟨herr, ?_⟩
    unfold run
    rw [herr]
  · intro db2 hok
    unfold delete_movie at hok
    cases hf : db.movies.find? (fun m => m.id == movie_id) with
    | none =>
      rw [hf] at hok
      cases hok
    | some mv0 =>
      rw [hf] at hok
      simp only [Except.ok.injEq, Prod.mk.injEq] at hok
      obtain ⟨rfl, -⟩ := hok
      refine ⟨?_, ?_, ?_, ?_, ?_, ?_, ?_, ?_, rfl, rfl, rfl, rfl⟩
      · intro mv hmv
        simpa using (List.mem_filter.mp hmv).2
      · intro mv hmv hne
        exact List.mem_filter.mpr ⟨hmv, by simpa using hne⟩
      · intro p hp
        simpa using (List.mem_filter.mp hp).2
      · intro p hp hne
        exact List.mem_filter.mpr ⟨hp, by simpa using hne⟩
      · intro p hp
        simpa using (List.mem_filter.mp hp).2
      · intro p hp hne
        exact List.mem_filter.mpr ⟨hp, by simpa using hne⟩
      · intro p hp
        simpa using (List.mem_filter.mp hp).2
      · intro p hp hne
        exact List.mem_filter.mpr ⟨hp, by simpa using hne⟩

/-- C7, witness: deleting the absent id 2 is a 404 that changes nothing;
deleting the present id 1 removes the movie and its links but keeps the
genre and country rows. -/
theorem delete_movie_spec_witness :
    (delete_movie 2 storeWithDune =
      .error ⟨404, "Movie with the given ID was not found."⟩ ∧
      (run (delete_movie 2) storeWithDune).2 = storeWithDune) ∧
    (∃ db2, delete_movie 1 storeWithDune = .ok (db2, ()) ∧
      db2.genres = storeWithDune.genres ∧
      db2.countries = storeWithDune.countries ∧
      ∀ mv ∈ db2.movies, mv.id ≠ 1) := by
  constructor
  · exact (delete_movie_spec 2 storeWithDune).1 (by decide)
  · cases hres : delete_movie 1 storeWithDune with
    | error e =>
      have hok : (delete_movie 1 storeWithDune).isOk = true := by decide
      rw [hres] at hok
      exact Bool.noConfusion hok
    | ok p =>
      obtain ⟨db2, u⟩ := p
      cases u
      obtain ⟨h1, -, -, -, -, -, -, -, hg, -, -, hc⟩ :=
        (delete_movie_spec 1 storeWithDune).2 db2 hres
      exact ⟨db2, rfl, hg, hc, h1⟩

/-- C4: partial update: every field absent from the patch payload keeps
its prior value on the patched row, rows with other ids are untouched,
and a patch containing only `score` changes only `score`. -/
theorem update_movie_patch_only (movie_id : Nat) (u : MovieUpdateSchema)
    (db db2 : Store) (msg : String)
    (hok : update_movie movie_id u db = .ok (db2, msg)) :
    (∀ mv ∈ db.movies, mv.id ≠ movie_id → mv ∈ db2.movies) ∧
    (∀ mv ∈ db.movies, mv.id = movie_id →
      applyUpdate u mv ∈ db2.movies ∧
      (applyUpdate u mv).id = mv.id ∧
      (applyUpdate u mv).countryId = mv.countryId ∧
      (u.name = none → (applyUpdate u mv).name = mv.name) ∧
      (u.date = none → (applyUpdate u mv).date = mv.date) ∧
      (u.score = none → (applyUpdate u mv).score = mv.score) ∧
      (u.overview = none → (applyUpdate u mv).overview = mv.overview) ∧
      (u.status = none → (applyUpdate u mv).status = mv.status) ∧
      (u.budget = none → (applyUpdate u mv).budget = mv.budget) ∧
      (u.revenue = none → (applyUpdate u mv).revenue = mv.revenue) ∧
      (∀ v, u = { score := some v } →
        applyUpdate u mv = { mv with score := v })) := by
  unfold update_movie at hok
  cases hf : db.movies.find? (fun m => m.id == movie_id) with
  | none =>
    rw [hf] at hok
    cases hok
  | some mv0 =>
    rw [hf] at hok
    simp only [Except.ok.injEq, Prod.mk.injEq] at hok
    obtain ⟨rfl, -⟩ := hok
    constructor
    · intro mv hmv hne
      exact List.mem_map.mpr ⟨mv, hmv, by rw [if_neg (by simpa using hne)]⟩
    · intro mv hmv hid
      refine ⟨?_, rfl, rfl, ?_, ?_, ?_, ?_, ?_, ?_, ?_, ?_⟩
      · exact List.mem_map.mpr ⟨mv, hmv, by rw [if_pos (by simpa using hid)]⟩
      · intro h
        simp [applyUpdate, h]
      · intro h
        simp [applyUpdate, h]
      · intro h
        simp [applyUpdate, h]
      · intro h
        simp [applyUpdate, h]
      · intro h
        simp [applyUpdate, h]
      · intro h
        simp [applyUpdate, h]
      · intro h
        simp [applyUpdate, h]
      · intro v hv
        subst hv
        simp [applyUpdate]

/-- C4, witness: patching movie 1 with only a score leaves its other
fields at their prior values. -/
theorem update_movie_patch_only_witness :
    ∃ db2 msg, update_movie 1 { score := some 55 } storeWithDune =
        .ok (db2, msg) ∧
      applyUpdate { score := some 55 } (newMovieRow sampleCreate 1 1) ∈
        db2.movies ∧
      applyUpdate { score := some 55 } (newMovieRow sampleCreate 1 1) =
        { newMovieRow sampleCreate 1 1 with score := 55 } := by
  cases hres : update_movie 1 { score := some 55 } storeWithDune with
  | error e =>
    have hok : (update_movie 1 { score := some 55 }
        storeWithDune).isOk = true := by decide
    rw [hres] at hok
    exact Bool.noConfusion hok
  | ok p =>
    obtain ⟨db2, msg⟩ := p
    have h := (update_movie_patch_only 1 { score := some 55 } storeWithDune db2
      msg hres).2 (newMovieRow sampleCreate 1 1) (by decide) (by decide)
    exact ⟨db2, msg, rfl, h.1, h.2.2.2.2.2.2.2.2.2.2 55 rfl⟩

/-- C10: an update can modify only the scalar movie columns: the lookup
tables, the association tables, and every movie's id and country
reference are unchanged by every update, whatever the payload. -/
theorem update_movie_frame (movie_id : Nat) (u : MovieUpdateSchema)
    (db db2 : Store) (msg : String)
    (hok : update_movie movie_id u db = .ok (db2, msg)) :
    db2.countries = db.countries ∧ db2.genres = db.genres ∧
    db2.actors = db.actors ∧ db2.languages = db.languages ∧
    db2.movieGenres = db.movieGenres ∧
    db2.movieActors = db.movieActors ∧
    db2.movieLanguages = db.movieLanguages ∧
    db2.movies.map (fun mv => (mv.id, mv.countryId)) =
      db.movies.map (fun mv => (mv.id, mv.countryId)) := by
  unfold update_movie at hok
  cases hf : db.movies.find? (fun m => m.id == movie_id) with
  | none =>
    rw [hf] at hok
    cases hok
  | some mv0 =>
    rw [hf] at hok
    simp only [Except.ok.injEq, Prod.mk.injEq] at hok
    obtain ⟨rfl, -⟩ := hok
    refine ⟨rfl, rfl, rfl, rfl, rfl, rfl, rfl, ?_⟩
    show (db.movies.map
      (fun m => if m.id == movie_id then applyUpdate u m else m)).map
        (fun mv => (mv.id, mv.countryId)) =
      db.movies.map (fun mv => (mv.id, mv.countryId))
    rw [List.map_map]
    apply List.map_congr_left
    intro mv _
    by_cases h : mv.id = movie_id <;> simp [h, applyUpdate]

/-- C10, witness: a patch rewriting every scalar field of movie 1 leaves
the relation tables and the movie's country reference unchanged. -/
theorem update_movie_frame_witness :
    ∃ db2 msg, update_movie 1
        { name := some "Renamed", date := some 99, score := some 1,
          overview := some "x", status := some .postProduction,
          budget := some 7, revenue := some 8 } storeWithDune =
        .ok (db2, msg) ∧
      db2.movieGenres = storeWithDune.movieGenres ∧
      db2.genres = storeWithDune.genres ∧
      db2.countries = storeWithDune.countries ∧
      db2.movies.map (fun mv => (mv.id, mv.countryId)) =
        storeWithDune.movies.map (fun mv => (mv.id, mv.countryId)) := by
  cases hres : update_movie 1
      { name := some "Renamed", date := some 99, score := some 1,
        overview := some "x", status := some .postProduction,
        budget := some 7, revenue := some 8 } storeWithDune with
  | error e =>
    have hok : (update_movie 1
        { name := some "Renamed", date := some 99, score := some 1,
          overview := some "x", status := some .postProduction,
          budget := some 7, revenue := some 8 }
        storeWithDune).isOk = true := by decide
    rw [hres] at hok
    exact Bool.noConfusion hok
  | ok p =>
    obtain ⟨db2, msg⟩ := p
    obtain ⟨hc, hg, -, -, hmg, -, -, hmap⟩ :=
      update_movie_frame 1 _ storeWithDune db2 msg hres
    exact ⟨db2, msg, rfl, hmg, hg, hc, hmap⟩

end MovieService
